import Mathlib

/-!
Shallow embedding of the r3f-vfx-playground particle-simulation core.

Scalars are modelled as exact rationals (the source computes in IEEE floats;
the algebraic structure of the claims is settled over `ℚ`).  Mathematical
primitives imported from the `three/tsl` library (`hash`, `sin`, `cos`,
`acos`, `sqrt`, `pow(1/3)`, `PI`, `mx_noise_vec3`, texture sampling) are not
code of this repository; they are supplied through a `MathEnv` record so the
repository's own logic stays explicit and fully executable.
-/

namespace VFX

/-- Rational 3-vector, mirroring TSL `vec3`. -/
structure Vec3 where
  x : ℚ
  y : ℚ
  z : ℚ
  deriving Repr, DecidableEq

namespace Vec3

def add (a b : Vec3) : Vec3 := ⟨a.x + b.x, a.y + b.y, a.z + b.z⟩

def sub (a b : Vec3) : Vec3 := ⟨a.x - b.x, a.y - b.y, a.z - b.z⟩

def smul (k : ℚ) (a : Vec3) : Vec3 := ⟨k * a.x, k * a.y, k * a.z⟩

def neg (a : Vec3) : Vec3 := ⟨-a.x, -a.y, -a.z⟩

def zero : Vec3 := ⟨0, 0, 0⟩

end Vec3

/-- TSL `mix(a, b, t) = a + (b - a) * t` (linear interpolation). -/
def mix (a b t : ℚ) : ℚ := a + (b - a) * t

/-- Four texture channels (R, G, B, A) of one texel. -/
structure Tex4 where
  r : ℚ
  g : ℚ
  b : ℚ
  a : ℚ
  deriving Repr, DecidableEq

/-- External mathematical primitives from `three/tsl`, abstracted as an
environment.  Everything the repository itself computes is explicit; only
these library builtins are parameters. -/
structure MathEnv where
  hashFn : ℚ → ℚ
  sinFn : ℚ → ℚ
  cosFn : ℚ → ℚ
  acosFn : ℚ → ℚ
  sqrtFn : ℚ → ℚ
  cbrtFn : ℚ → ℚ
  piV : ℚ
  noiseFn : Vec3 → Vec3
  /-- Sample of the combined curve texture at a coordinate, giving the four
  channels (R, G, B, A).  Texture filtering is hardware behaviour. -/
  texFn : ℚ → Tex4

/-- Trivial concrete environment used to instantiate witnesses. -/
def constEnv : MathEnv where
  hashFn := fun _ => 1/2
  sinFn := fun _ => 0
  cosFn := fun _ => 1
  acosFn := fun _ => 0
  sqrtFn := fun _ => 0
  cbrtFn := fun _ => 0
  piV := 355/113
  noiseFn := fun _ => Vec3.zero
  texFn := fun _ => ⟨1, 1, 1, 1⟩

/-! ## Curve model (`core-vfx/src/curves.ts`) -/

/-- Control point of a user-authored Bézier curve (`CurvePoint` in
`types.ts`).  A missing/invalid `pos` array is modelled as `none`. -/
structure CurvePoint where
  pos : Option (ℚ × ℚ)
  handleIn : Option (ℚ × ℚ)
  handleOut : Option (ℚ × ℚ)
  deriving Repr, DecidableEq

/-- Curve data (`CurveData = { points: CurvePoint[] } | null`). -/
def CurveData := Option (List CurvePoint)

/-- The fixed sampling resolution (`CURVE_RESOLUTION = 256`). -/
def CURVE_RESOLUTION : ℕ := 256

/-- Cubic Bézier evaluation `evaluateBezierSegment` from `curves.ts`:
control points are `p0`, `p0 + h0Out`, `p1 + h1In`, `p1`; absent handles
count as `(0, 0)` (the `|| 0` in the source). -/
def evaluateBezierSegment (t : ℚ) (p0 p1 : ℚ × ℚ)
    (h0Out h1In : Option (ℚ × ℚ)) : ℚ × ℚ :=
  let cp0 := p0
  let cp1 : ℚ × ℚ := (p0.1 + ((h0Out.map Prod.fst).getD 0),
                      p0.2 + ((h0Out.map Prod.snd).getD 0))
  let cp2 : ℚ × ℚ := (p1.1 + ((h1In.map Prod.fst).getD 0),
                      p1.2 + ((h1In.map Prod.snd).getD 0))
  let cp3 := p1
  let mt := 1 - t
  let mt2 := mt * mt
  let mt3 := mt2 * mt
  let t2 := t * t
  let t3 := t2 * t
  (mt3 * cp0.1 + 3 * mt2 * t * cp1.1 + 3 * mt * t2 * cp2.1 + t3 * cp3.1,
   mt3 * cp0.2 + 3 * mt2 * t * cp1.2 + 3 * mt * t2 * cp2.2 + t3 * cp3.2)

/-- Segment search loop of `sampleCurveAtX`: first index `i` with both
endpoints carrying `pos` and `points[i].pos[0] ≤ x ≤ points[i+1].pos[0]`;
`segmentIdx` stays `0` when no segment matches. -/
def findSegmentIdx (x : ℚ) (points : List CurvePoint) : ℕ :=
  go 0 points
where
  go : ℕ → List CurvePoint → ℕ
  | _, [] => 0
  | _, [_] => 0
  | i, p :: q :: rest =>
    match p.pos, q.pos with
    | some a, some b =>
      if x ≥ a.1 ∧ x ≤ b.1 then i else go (i + 1) (q :: rest)
    | _, _ => go (i + 1) (q :: rest)

/-- Binary-search loop body of `sampleCurveAtX` (20 iterations, early break
when the Bézier `x` matches the query within `1e-4`); returns the final
parameter `t`. -/
def bisectT (x : ℚ) (p0pos p1pos : ℚ × ℚ) (h0Out h1In : Option (ℚ × ℚ)) :
    ℕ → ℚ → ℚ → ℚ → ℚ
  | 0, _, _, t => t
  | n + 1, tLow, tHigh, t =>
    let px := (evaluateBezierSegment t p0pos p1pos h0Out h1In).1
    if |px - x| < 1/10000 then t
    else if px < x then bisectT x p0pos p1pos h0Out h1In n t tHigh ((t + tHigh) / 2)
    else bisectT x p0pos p1pos h0Out h1In n tLow t ((tLow + t) / 2)

/-- TSL-style clamp of a rational to `[lo, hi]` (`Math.max(lo, Math.min(hi, v))`). -/
def clampQ (lo hi v : ℚ) : ℚ := max lo (min hi v)

/-- Sampling a curve at a given `x` (`sampleCurveAtX` in `curves.ts`). -/
def sampleCurveAtX (x : ℚ) (points : List CurvePoint) : ℚ :=
  if points.length < 2 then x
  else
    match points.head?, points.getLast? with
    | some pFirst, some pLast =>
      if pFirst.pos.isNone ∨ pLast.pos.isNone then x
      else
        let segmentIdx := findSegmentIdx x points
        match points.get? segmentIdx, points.get? (segmentIdx + 1) with
        | some p0, some p1 =>
          match p0.pos, p1.pos with
          | some p0pos, some p1pos =>
            let t := bisectT x p0pos p1pos p0.handleOut p1.handleIn 20 0 1 (1/2)
            let py := (evaluateBezierSegment t p0pos p1pos p0.handleOut p1.handleIn).2
            clampQ (-(1/2)) (3/2) py
          | _, _ => x
        | _, _ => x
    | _, _ => x

/-- Value of the fallback linear descending ramp at sample `i`. -/
def rampAt (resolution i : ℕ) : ℚ := 1 - (i : ℚ) / ((resolution : ℚ) - 1)

/-- Baking a curve to an array (`bakeCurveToArray` in `curves.ts`).  Malformed
input (null data, fewer than 2 points, first/last point without a `pos`
array) yields the linear 1→0 ramp; otherwise each sample `i` is the curve
sampled at `x = i / (resolution - 1)`. -/
def bakeCurveToArray (curveData : CurveData) (resolution : ℕ := CURVE_RESOLUTION) :
    List ℚ :=
  match curveData with
  | none => (List.range resolution).map (rampAt resolution)
  | some points =>
    if points.length < 2 then
      (List.range resolution).map (rampAt resolution)
    else
      match points.head?, points.getLast? with
      | some pFirst, some pLast =>
        if pFirst.pos.isNone ∨ pLast.pos.isNone then
          (List.range resolution).map (rampAt resolution)
        else
          (List.range resolution).map fun (i : ℕ) =>
            sampleCurveAtX ((i : ℚ) / ((resolution : ℚ) - 1)) points
      | _, _ => (List.range resolution).map (rampAt resolution)

/-- Interleaved RGBA data built by `createCombinedCurveTexture`:
`rgba[i*4] = size, [i*4+1] = opacity, [i*4+2] = velocity, [i*4+3] = rotation
speed`, at the fixed resolution 256. -/
def createCombinedCurveTexture (sizeCurve opacityCurve velocityCurve
    rotationSpeedCurve : CurveData) : List ℚ :=
  let sizeData := bakeCurveToArray sizeCurve
  let opacityData := bakeCurveToArray opacityCurve
  let velocityData := bakeCurveToArray velocityCurve
  let rotationSpeedData := bakeCurveToArray rotationSpeedCurve
  (List.range CURVE_RESOLUTION).flatMap fun i =>
    [sizeData.getD i 0, opacityData.getD i 0, velocityData.getD i 0,
     rotationSpeedData.getD i 0]

/-! ## Particle storage model -/

/-- One particle slot of the structure-of-arrays storage.  The rotation and
per-particle colour columns are optional in the source (`null` storage when
the feature is unused); their presence is tracked by `Features` flags, and
the passes only write these fields when the corresponding column exists. -/
@[ext]
structure Slot where
  position : Vec3
  velocity : Vec3
  lifetime : ℚ
  fadeRate : ℚ
  size : ℚ
  rotation : Vec3
  colorStart : Vec3
  colorEnd : Vec3
  deriving Repr, DecidableEq

instance : Inhabited Vec3 := ⟨Vec3.zero⟩

instance : Inhabited Slot :=
  ⟨⟨Vec3.zero, Vec3.zero, 0, 0, 0, Vec3.zero, Vec3.zero, Vec3.zero⟩⟩

/-- Shader feature switches: the `ShaderFeatures` flags handed to
`createUpdateCompute`, plus the presence flags of the optional storage
columns (`particleRotations`, `particleColorStarts/Ends` non-null). -/
structure Features where
  turbulence : Bool
  attractors : Bool
  collision : Bool
  rotation : Bool
  perParticleColor : Bool
  hasRotation : Bool
  hasColor : Bool
  deriving Repr, DecidableEq

/-- Feature set with everything off and no optional columns. -/
def noFeatures : Features := ⟨false, false, false, false, false, false, false⟩

/-- One attractor's uniform block (`attractorKPos/Strength/Radius/Type/Axis`). -/
structure AttractorU where
  pos : Vec3
  strength : ℚ
  radius : ℚ
  typ : ℚ
  axis : Vec3
  deriving Repr, DecidableEq

instance : Inhabited AttractorU := ⟨⟨Vec3.zero, 0, 0, 0, Vec3.zero⟩⟩

/-- The uniform set shared by the spawn and update compute passes, as built
by `VFXParticles.tsx`.  Boolean-like uniforms are floats compared against
`0.5` exactly as in the shaders. -/
structure Uniforms where
  spawnIndexStart : ℚ := 0
  spawnIndexEnd : ℚ := 0
  spawnSeed : ℚ := 0
  spawnPosition : Vec3 := Vec3.zero
  emitterShapeType : ℚ := 0
  emitterRadiusInner : ℚ := 0
  emitterRadiusOuter : ℚ := 0
  emitterAngle : ℚ := 0
  emitterHeightMin : ℚ := 0
  emitterHeightMax : ℚ := 0
  emitterSurfaceOnly : ℚ := 0
  emitterDir : Vec3 := ⟨0, 1, 0⟩
  startPosMinX : ℚ := 0
  startPosMaxX : ℚ := 0
  startPosMinY : ℚ := 0
  startPosMaxY : ℚ := 0
  startPosMinZ : ℚ := 0
  startPosMaxZ : ℚ := 0
  lifetimeMin : ℚ := 0
  lifetimeMax : ℚ := 0
  attractToCenter : ℚ := 0
  startPositionAsDirection : ℚ := 0
  dirMinX : ℚ := 0
  dirMaxX : ℚ := 0
  dirMinY : ℚ := 0
  dirMaxY : ℚ := 0
  dirMinZ : ℚ := 0
  dirMaxZ : ℚ := 0
  speedMin : ℚ := 0
  speedMax : ℚ := 0
  sizeMin : ℚ := 0
  sizeMax : ℚ := 0
  rotationMinX : ℚ := 0
  rotationMaxX : ℚ := 0
  rotationMinY : ℚ := 0
  rotationMaxY : ℚ := 0
  rotationMinZ : ℚ := 0
  rotationMaxZ : ℚ := 0
  colorStartCount : ℚ := 1
  colorEndCount : ℚ := 1
  colorStart0 : Vec3 := ⟨1, 1, 1⟩
  colorStart1 : Vec3 := ⟨1, 1, 1⟩
  colorStart2 : Vec3 := ⟨1, 1, 1⟩
  colorStart3 : Vec3 := ⟨1, 1, 1⟩
  colorStart4 : Vec3 := ⟨1, 1, 1⟩
  colorStart5 : Vec3 := ⟨1, 1, 1⟩
  colorStart6 : Vec3 := ⟨1, 1, 1⟩
  colorStart7 : Vec3 := ⟨1, 1, 1⟩
  colorEnd0 : Vec3 := ⟨1, 1, 1⟩
  colorEnd1 : Vec3 := ⟨1, 1, 1⟩
  colorEnd2 : Vec3 := ⟨1, 1, 1⟩
  colorEnd3 : Vec3 := ⟨1, 1, 1⟩
  colorEnd4 : Vec3 := ⟨1, 1, 1⟩
  colorEnd5 : Vec3 := ⟨1, 1, 1⟩
  colorEnd6 : Vec3 := ⟨1, 1, 1⟩
  colorEnd7 : Vec3 := ⟨1, 1, 1⟩
  deltaTime : ℚ := 16/1000
  gravity : Vec3 := Vec3.zero
  sizeBasedGravity : ℚ := 0
  velocityCurveEnabled : ℚ := 0
  frictionEasingType : ℚ := 0
  frictionIntensityStart : ℚ := 0
  frictionIntensityEnd : ℚ := 0
  turbulenceIntensity : ℚ := 0
  turbulenceFrequency : ℚ := 1
  turbulenceTime : ℚ := 0
  attractorCount : ℚ := 0
  attractor0 : AttractorU := default
  attractor1 : AttractorU := default
  attractor2 : AttractorU := default
  attractor3 : AttractorU := default
  collisionEnabled : ℚ := 0
  collisionPlaneY : ℚ := 0
  collisionBounce : ℚ := 0
  collisionFriction : ℚ := 1
  collisionDie : ℚ := 0
  rotationSpeedMinX : ℚ := 0
  rotationSpeedMaxX : ℚ := 0
  rotationSpeedMinY : ℚ := 0
  rotationSpeedMaxY : ℚ := 0
  rotationSpeedMinZ : ℚ := 0
  rotationSpeedMaxZ : ℚ := 0
  rotationSpeedCurveEnabled : ℚ := 0

instance : Inhabited Uniforms := ⟨{}⟩

/-- Euclidean length of a TSL vector, via the environment's square root. -/
def lengthOf (env : MathEnv) (v : Vec3) : ℚ :=
  env.sqrtFn (v.x * v.x + v.y * v.y + v.z * v.z)

/-- Componentwise division of a vector by a scalar (TSL `v.div(k)`). -/
def Vec3.divQ (v : Vec3) (k : ℚ) : Vec3 := ⟨v.x / k, v.y / k, v.z / k⟩

/-! ## Init pass (`shaders/init.ts`) -/

/-- Per-slot body of `createInitCompute`: every slot becomes dead, with the
sentinel position; optional columns are zeroed / whitened only when present. -/
def initSlot (feat : Features) (s : Slot) : Slot where
  position := ⟨0, -1000, 0⟩
  velocity := Vec3.zero
  lifetime := 0
  fadeRate := 0
  size := 0
  rotation := if feat.hasRotation then Vec3.zero else s.rotation
  colorStart := if feat.hasColor then ⟨1, 1, 1⟩ else s.colorStart
  colorEnd := if feat.hasColor then ⟨1, 1, 1⟩ else s.colorEnd

/-- The init dispatch over `maxParticles` threads. -/
def initPass (feat : Features) (maxParticles : ℕ) (st : ℕ → Slot) : ℕ → Slot :=
  fun i => if i < maxParticles then initSlot feat (st i) else st i

/-! ## Spawn pass (`shaders/spawn.ts`) -/

/-- Range predicate of the spawn shader:
`startIdx.lessThan(endIdx).select(ge.and(lt), ge.or(lt))`. -/
def inRangeQ (startIdx endIdx idx : ℚ) : Bool :=
  if startIdx < endIdx then decide (idx ≥ startIdx ∧ idx < endIdx)
  else decide (idx ≥ startIdx ∨ idx < endIdx)

/-- Branchless colour pick (`selectColor` in `shaders/helpers.ts`): a cascade
of `idx < k` comparisons over up to 8 candidates. -/
def selectColor (idx : ℚ) (c0 c1 c2 c3 c4 c5 c6 c7 : Vec3) : Vec3 :=
  if idx < 1 then c0
  else if idx < 2 then c1
  else if idx < 3 then c2
  else if idx < 4 then c3
  else if idx < 5 then c4
  else if idx < 6 then c5
  else if idx < 7 then c6
  else c7

/-- Rodrigues rotation from canonical `+Y` to `emitDir`
(`rotateToEmitDir` inside `createSpawnCompute`), with the near-parallel and
near-antiparallel special cases (`cos` within `0.999` of `±1`). -/
def rotateToEmitDir (env : MathEnv) (emitDir localPos : Vec3) : Vec3 :=
  let cosAngleVal := emitDir.y
  let axisX := -emitDir.z
  let axisZ := emitDir.x
  let axisLenSq := axisX * axisX + axisZ * axisZ
  let axisLen := env.sqrtFn (max axisLenSq (1/10000))
  let kx := axisX / axisLen
  let kz := axisZ / axisLen
  let sinAngleVal := axisLen
  let oneMinusCos := 1 - cosAngleVal
  let crossX := -(kz * localPos.y)
  let crossY := kz * localPos.x - kx * localPos.z
  let crossZ := kx * localPos.y
  let kDotV := kx * localPos.x + kz * localPos.z
  let rotatedX := localPos.x * cosAngleVal + crossX * sinAngleVal +
    kx * kDotV * oneMinusCos
  let rotatedY := localPos.y * cosAngleVal + crossY * sinAngleVal
  let rotatedZ := localPos.z * cosAngleVal + crossZ * sinAngleVal +
    kz * kDotV * oneMinusCos
  if cosAngleVal > 999/1000 then localPos
  else if cosAngleVal < -(999/1000) then ⟨localPos.x, -localPos.y, localPos.z⟩
  else ⟨rotatedX, rotatedY, rotatedZ⟩

/-- Local emission-shape offset of slot `i` (the `shapeOffset` selection chain
of `createSpawnCompute`): point / box / sphere / cone / disk / edge selected
by the `emitterShapeType` thresholds. -/
def shapeOffsetOf (env : MathEnv) (u : Uniforms) (i : ℕ) : Vec3 :=
  let idx : ℚ := i
  let particleSeed := idx + u.spawnSeed
  let randPosX := env.hashFn (particleSeed + 5555)
  let randPosY := env.hashFn (particleSeed + 6666)
  let randPosZ := env.hashFn (particleSeed + 7777)
  let randRadius := env.hashFn (particleSeed + 8880)
  let randTheta := env.hashFn (particleSeed + 9990)
  let randPhi := env.hashFn (particleSeed + 10100)
  let randHeight := env.hashFn (particleSeed + 11110)
  let theta := randTheta * (env.piV * 2)
  let phi := env.acosFn (1 - randPhi * 2)
  let radiusT := if u.emitterSurfaceOnly > 1/2 then 1 else env.cbrtFn randRadius
  let radius := mix u.emitterRadiusInner u.emitterRadiusOuter radiusT
  let boxPos : Vec3 := ⟨mix u.startPosMinX u.startPosMaxX randPosX,
    mix u.startPosMinY u.startPosMaxY randPosY,
    mix u.startPosMinZ u.startPosMaxZ randPosZ⟩
  let spherePos : Vec3 := ⟨radius * env.sinFn phi * env.cosFn theta,
    radius * env.cosFn phi,
    radius * env.sinFn phi * env.sinFn theta⟩
  let coneH := mix u.emitterHeightMin u.emitterHeightMax randHeight
  let coneR := coneH * env.sinFn u.emitterAngle * radiusT
  let conePos := rotateToEmitDir env u.emitterDir
    ⟨coneR * env.cosFn theta, coneH * env.cosFn u.emitterAngle, coneR * env.sinFn theta⟩
  let diskR := if u.emitterSurfaceOnly > 1/2 then u.emitterRadiusOuter
    else mix u.emitterRadiusInner u.emitterRadiusOuter (env.sqrtFn randRadius)
  let diskPos := rotateToEmitDir env u.emitterDir
    ⟨diskR * env.cosFn theta, 0, diskR * env.sinFn theta⟩
  let edgeT := randPosX
  let edgePos : Vec3 := ⟨mix u.startPosMinX u.startPosMaxX edgeT,
    mix u.startPosMinY u.startPosMaxY edgeT,
    mix u.startPosMinZ u.startPosMaxZ edgeT⟩
  let pointPos : Vec3 := ⟨0, 0, 0⟩
  if u.emitterShapeType < 1/2 then pointPos
  else if u.emitterShapeType < 3/2 then boxPos
  else if u.emitterShapeType < 5/2 then spherePos
  else if u.emitterShapeType < 7/2 then conePos
  else if u.emitterShapeType < 9/2 then diskPos
  else edgePos

/-- Per-slot body of `createSpawnCompute` for an in-range slot: all fields of
the slot are (re)initialised; optional columns only when present. -/
def spawnSlot (env : MathEnv) (u : Uniforms) (feat : Features) (i : ℕ)
    (s : Slot) : Slot :=
  let idx : ℚ := i
  let particleSeed := idx + u.spawnSeed
  let randDirX := env.hashFn (particleSeed + 333)
  let randDirY := env.hashFn (particleSeed + 444)
  let randDirZ := env.hashFn (particleSeed + 555)
  let randFade := env.hashFn (particleSeed + 666)
  let randColorStart := env.hashFn (particleSeed + 777)
  let randColorEnd := env.hashFn (particleSeed + 888)
  let randSize := env.hashFn (particleSeed + 999)
  let randSpeed := env.hashFn (particleSeed + 1111)
  let randRotationX := env.hashFn (particleSeed + 2222)
  let randRotationY := env.hashFn (particleSeed + 3333)
  let randRotationZ := env.hashFn (particleSeed + 4444)
  let shapeOffset := shapeOffsetOf env u i
  let position := u.spawnPosition.add shapeOffset
  let randomFade := mix u.lifetimeMin u.lifetimeMax randFade
  let attractVelocity := Vec3.smul randomFade shapeOffset.neg
  let dirVec : Vec3 := ⟨mix u.dirMinX u.dirMaxX randDirX,
    mix u.dirMinY u.dirMaxY randDirY, mix u.dirMinZ u.dirMaxZ randDirZ⟩
  let randomDirLength := lengthOf env dirVec
  let randomDir := if randomDirLength > 1/1000 then dirVec.divQ randomDirLength
    else Vec3.zero
  let startPosLength := lengthOf env shapeOffset
  let startPosDir := if startPosLength > 1/1000 then shapeOffset.divQ startPosLength
    else Vec3.zero
  let dir := if u.startPositionAsDirection > 1/2 then startPosDir else randomDir
  let randomSpeed := mix u.speedMin u.speedMax randSpeed
  let normalVelocity := Vec3.smul randomSpeed dir
  let velocity := if u.attractToCenter > 1/2 then attractVelocity else normalVelocity
  let randomSize := mix u.sizeMin u.sizeMax randSize
  let rotation := if feat.hasRotation then
      (⟨mix u.rotationMinX u.rotationMaxX randRotationX,
        mix u.rotationMinY u.rotationMaxY randRotationY,
        mix u.rotationMinZ u.rotationMaxZ randRotationZ⟩ : Vec3)
    else s.rotation
  let colorStart := if feat.hasColor then
      selectColor (⌊randColorStart * u.colorStartCount⌋ : ℤ)
        u.colorStart0 u.colorStart1 u.colorStart2 u.colorStart3
        u.colorStart4 u.colorStart5 u.colorStart6 u.colorStart7
    else s.colorStart
  let colorEnd := if feat.hasColor then
      selectColor (⌊randColorEnd * u.colorEndCount⌋ : ℤ)
        u.colorEnd0 u.colorEnd1 u.colorEnd2 u.colorEnd3
        u.colorEnd4 u.colorEnd5 u.colorEnd6 u.colorEnd7
    else s.colorEnd
  { position := position, velocity := velocity, lifetime := 1,
    fadeRate := randomFade, size := randomSize, rotation := rotation,
    colorStart := colorStart, colorEnd := colorEnd }

/-- The spawn dispatch over `maxParticles` threads: only in-range slots are
written; all other slots are untouched. -/
def spawnPass (env : MathEnv) (u : Uniforms) (feat : Features)
    (maxParticles : ℕ) (st : ℕ → Slot) : ℕ → Slot :=
  fun i =>
    if i < maxParticles then
      if inRangeQ u.spawnIndexStart u.spawnIndexEnd (i : ℚ) then
        spawnSlot env u feat i (st i)
      else st i
    else st i

/-! ## Update pass (`shaders/update.ts`) -/

/-- Legacy friction-based speed scale of the update shader: easing of
`progress` selected by `frictionEasingType`, then
`1 - mix(intensityStart, intensityEnd, eased) * 0.9`. -/
def frictionSpeedScale (u : Uniforms) (progress : ℚ) : ℚ :=
  let easingType := u.frictionEasingType
  let easedProgress :=
    if easingType < 1/2 then progress
    else if easingType < 3/2 then progress * progress
    else if easingType < 5/2 then 1 - (1 - progress) * (1 - progress)
    else if progress < 1/2 then 2 * progress * progress
    else 1 - ((-2) * progress + 2) ^ 2 / 2
  let currentIntensity := mix u.frictionIntensityStart u.frictionIntensityEnd easedProgress
  1 - currentIntensity * (9/10)

/-- Speed scale of the update shader: the velocity curve's B channel when the
curve is enabled, the legacy friction scale otherwise. -/
def speedScaleOf (env : MathEnv) (u : Uniforms) (progress : ℚ) : ℚ :=
  if u.velocityCurveEnabled > 1/2 then (env.texFn progress).b
  else frictionSpeedScale u progress

/-- Curl of the noise field at the particle's position, via central finite
differences with `eps = 0.01` (the turbulence block of the update shader). -/
def turbulenceCurl (env : MathEnv) (u : Uniforms) (position : Vec3) : Vec3 :=
  let noisePos := (Vec3.smul u.turbulenceFrequency position).add
    ⟨u.turbulenceTime, u.turbulenceTime * (7/10), u.turbulenceTime * (13/10)⟩
  let eps : ℚ := 1/100
  let nPosX := env.noiseFn (noisePos.add ⟨eps, 0, 0⟩)
  let nNegX := env.noiseFn (noisePos.sub ⟨eps, 0, 0⟩)
  let nPosY := env.noiseFn (noisePos.add ⟨0, eps, 0⟩)
  let nNegY := env.noiseFn (noisePos.sub ⟨0, eps, 0⟩)
  let nPosZ := env.noiseFn (noisePos.add ⟨0, 0, eps⟩)
  let nNegZ := env.noiseFn (noisePos.sub ⟨0, 0, eps⟩)
  let dFxdy := (nPosY.x - nNegY.x) / (eps * 2)
  let dFxdz := (nPosZ.x - nNegZ.x) / (eps * 2)
  let dFydx := (nPosX.y - nNegX.y) / (eps * 2)
  let dFydz := (nPosZ.y - nNegZ.y) / (eps * 2)
  let dFzdx := (nPosX.z - nNegX.z) / (eps * 2)
  let dFzdy := (nPosY.z - nNegY.z) / (eps * 2)
  ⟨dFzdy - dFydz, dFxdz - dFzdx, dFydx - dFxdy⟩

/-- One attractor's contribution to the velocity (`applyAttractor` in the
update shader); a no-op when the strength is within `0.001` of zero. -/
def applyAttractor (env : MathEnv) (dt : ℚ) (a : AttractorU)
    (position velocity : Vec3) : Vec3 :=
  if |a.strength| > 1/1000 then
    let toAttractor := a.pos.sub position
    let dist := lengthOf env toAttractor
    let safeDist := max dist (1/100)
    let direction := toAttractor.divQ safeDist
    let falloff := if a.radius > 1/1000 then max (1 - dist / a.radius) 0
      else 1 / (safeDist * safeDist + 1)
    let force := if a.typ < 1/2 then Vec3.smul (a.strength * falloff) direction
      else
        let tangent : Vec3 := ⟨a.axis.y * toAttractor.z - a.axis.z * toAttractor.y,
          a.axis.z * toAttractor.x - a.axis.x * toAttractor.z,
          a.axis.x * toAttractor.y - a.axis.y * toAttractor.x⟩
        let tangentLen := max (lengthOf env tangent) (1/1000)
        Vec3.smul (a.strength * falloff) (tangent.divQ tangentLen)
    velocity.add (Vec3.smul dt force)
  else velocity

/-- Result of the collision block: (position, velocity, lifetime). -/
structure PVL where
  pos : Vec3
  vel : Vec3
  lt : ℚ
  deriving Repr, DecidableEq

/-- Plane-collision block of the update shader: below `planeY`, either kill
(sentinel position, zero lifetime) when `die` is set, or clamp to the plane,
reflect `velocity.y` (`|vy| * bounce`) and scale the horizontal components by
`friction`.  Slots at or above the plane are untouched. -/
def collisionStep (u : Uniforms) (position velocity : Vec3) (lifetime : ℚ) : PVL :=
  if u.collisionEnabled > 1/2 then
    if position.y < u.collisionPlaneY then
      if u.collisionDie > 1/2 then
        ⟨⟨position.x, -1000, position.z⟩, velocity, 0⟩
      else
        ⟨⟨position.x, u.collisionPlaneY, position.z⟩,
         ⟨velocity.x * u.collisionFriction, |velocity.y| * u.collisionBounce,
          velocity.z * u.collisionFriction⟩,
         lifetime⟩
    else ⟨position, velocity, lifetime⟩
  else ⟨position, velocity, lifetime⟩

/-- Rotation-integration block: per-slot hashed rotation speed (offsets
8888/9999/10101), optionally modulated by the curve texture's A channel. -/
def rotationStep (env : MathEnv) (u : Uniforms) (i : ℕ) (dt progress : ℚ)
    (rotation : Vec3) : Vec3 :=
  let idx : ℚ := i
  let rotSpeedX := mix u.rotationSpeedMinX u.rotationSpeedMaxX (env.hashFn (idx + 8888))
  let rotSpeedY := mix u.rotationSpeedMinY u.rotationSpeedMaxY (env.hashFn (idx + 9999))
  let rotSpeedZ := mix u.rotationSpeedMinZ u.rotationSpeedMaxZ (env.hashFn (idx + 10101))
  let rotSpeedMultiplier := if u.rotationSpeedCurveEnabled > 1/2
    then (env.texFn progress).a else 1
  rotation.add (Vec3.smul (dt * rotSpeedMultiplier) ⟨rotSpeedX, rotSpeedY, rotSpeedZ⟩)

/-- Velocity after the force blocks of the update-shader body (gravity with
the size-based multiplier, then turbulence, then up to four attractors), right
before position integration. -/
def updateForces (env : MathEnv) (u : Uniforms) (feat : Features) (s : Slot) :
    Vec3 :=
  let dt := u.deltaTime
  let gravityMultiplier := 1 + s.size * u.sizeBasedGravity
  let v1 := s.velocity.add (Vec3.smul (dt * gravityMultiplier) u.gravity)
  let v2 := if feat.turbulence ∧ u.turbulenceIntensity > 1/1000 then
      v1.add (Vec3.smul (u.turbulenceIntensity * dt) (turbulenceCurl env u s.position))
    else v1
  let v3 := if feat.attractors ∧ u.attractorCount > 0 then
      applyAttractor env dt u.attractor0 s.position v2 else v2
  let v4 := if feat.attractors ∧ u.attractorCount > 1 then
      applyAttractor env dt u.attractor1 s.position v3 else v3
  let v5 := if feat.attractors ∧ u.attractorCount > 2 then
      applyAttractor env dt u.attractor2 s.position v4 else v4
  if feat.attractors ∧ u.attractorCount > 3 then
    applyAttractor env dt u.attractor3 s.position v5 else v5

/-- Position integration (`position += velocity * dt * speedScale`) followed
by the optional collision block, giving the post-collision position, velocity
and lifetime. -/
def updateCollision (env : MathEnv) (u : Uniforms) (feat : Features)
    (s : Slot) : PVL :=
  let v6 := updateForces env u feat s
  let progress := 1 - s.lifetime
  let p1 := s.position.add (Vec3.smul (u.deltaTime * speedScaleOf env u progress) v6)
  if feat.collision then collisionStep u p1 v6 s.lifetime
  else ⟨p1, v6, s.lifetime⟩

/-- Body of `createUpdateCompute` for a live slot (the `If(lifetime > 0)`
block): forces, integration, collision, rotation, and lifetime decay with the
dead clamp `lifetime ≤ 0 → lifetime := 0, position.y := -1000`. -/
def updateSlotLive (env : MathEnv) (u : Uniforms) (feat : Features) (i : ℕ)
    (s : Slot) : Slot :=
  let progress := 1 - s.lifetime
  let c := updateCollision env u feat s
  let rot := if feat.rotation ∧ feat.hasRotation then
      rotationStep env u i u.deltaTime progress s.rotation
    else s.rotation
  let l3 := c.lt - s.fadeRate * u.deltaTime
  if l3 ≤ 0 then
    { s with
      position := ⟨c.pos.x, -1000, c.pos.z⟩
      velocity := c.vel
      lifetime := 0
      rotation := rot }
  else
    { s with
      position := c.pos
      velocity := c.vel
      lifetime := l3
      rotation := rot }

/-- Per-slot body of `createUpdateCompute`: dead slots (`lifetime ≤ 0`) are
skipped entirely. -/
def updateSlot (env : MathEnv) (u : Uniforms) (feat : Features) (i : ℕ)
    (s : Slot) : Slot :=
  if s.lifetime > 0 then updateSlotLive env u feat i s else s

/-- The update dispatch over `maxParticles` threads. -/
def updatePass (env : MathEnv) (u : Uniforms) (feat : Features)
    (maxParticles : ℕ) (st : ℕ → Slot) : ℕ → Slot :=
  fun i => if i < maxParticles then updateSlot env u feat i (st i) else st i

/-- Several update frames on one slot, every frame `d` pushing `deltaTime := d`
as the host render loop does before the dispatch. -/
def simulateSlot (env : MathEnv) (u : Uniforms) (feat : Features) (i : ℕ)
    (dts : List ℚ) (s : Slot) : Slot :=
  dts.foldl (fun st d => updateSlot env { u with deltaTime := d } feat i st) s

/-! ## Host-side pieces (`VFXParticles.tsx`, `utils.ts`) -/

/-- Conversion `lifetimeToFadeRate(seconds) = 1 / seconds` from `utils.ts`. -/
def lifetimeToFadeRate (seconds : ℚ) : ℚ := 1 / seconds

/-- The `lifetimeMin`/`lifetimeMax` uniforms as `VFXParticles.tsx` builds them
from a configured lifetime range `[a, b]`: note the inversion —
`lifetimeMin := 1 / b` and `lifetimeMax := 1 / a`. -/
def setLifetimeUniforms (u : Uniforms) (a b : ℚ) : Uniforms :=
  { u with
    lifetimeMin := lifetimeToFadeRate b
    lifetimeMax := lifetimeToFadeRate a }

/-- Ring-cursor arithmetic of `spawnInternal`:
`endIdx = (startIdx + count) % maxParticles`. -/
def spawnEndIndex (startIdx count maxParticles : ℕ) : ℕ :=
  (startIdx + count) % maxParticles

/-! ## Precomputed-texture loading (`loadCurveTextureFromPath`,
`useCurveTextureAsync`) -/

/-- Shape of a fetch response: HTTP status flag and the fetched blob parsed as
32-bit floats (`new Float32Array(buffer)`). -/
structure FetchResponse where
  ok : Bool
  status : ℕ
  floats : List ℚ
  deriving Repr, DecidableEq

/-- The fallible loader `loadCurveTextureFromPath`: a non-OK response or a
parsed float count different from `CURVE_RESOLUTION * 4` raises an error; on
success the texture data is exactly the fetched floats. -/
def loadCurveTextureFromPath (response : FetchResponse) :
    Except String (List ℚ) :=
  if ¬ response.ok then
    .error ("Failed to load curve texture: HTTP " ++ toString response.status)
  else if response.floats.length ≠ CURVE_RESOLUTION * 4 then
    .error "Invalid curve texture size"
  else
    .ok response.floats

/-- Outcome of the texture-acquisition layer: either the precomputed blob was
copied in, or the system fell back to baking the configured curves. -/
inductive TexOutcome where
  | loaded (data : List ℚ)
  | baked (data : List ℚ)
  deriving Repr, DecidableEq

/-- The configured-path branch of `useCurveTextureAsync`: the loader's error
is caught (`.catch`), a warning is logged, and the configured curves are baked
instead; the function is total — no error reaches the caller.  The returned
flag records whether a warning was logged. -/
def acquireCurveTexture (response : FetchResponse)
    (sizeCurve opacityCurve velocityCurve rotationSpeedCurve : CurveData) :
    Bool × TexOutcome :=
  match loadCurveTextureFromPath response with
  | .ok data => (false, .loaded data)
  | .error _ =>
    (true, .baked (createCombinedCurveTexture sizeCurve opacityCurve
      velocityCurve rotationSpeedCurve))

/-! ## Helper lemmas -/

lemma getD_map_range (f : ℕ → ℚ) (n i : ℕ) (h : i < n) :
    ((List.range n).map f).getD i 0 = f i := by
  simp [List.getD_eq_getElem?_getD, List.getElem?_map, List.getElem?_range, h]

lemma flatMap_range_getD (f : ℕ → List ℚ) (n : ℕ) (hf : ∀ j, (f j).length = 4)
    (i k : ℕ) (hi : i < n) (hk : k < 4) :
    ((List.range n).flatMap f).getD (i * 4 + k) 0 = (f i).getD k 0 := by
  induction i generalizing n f with
  | zero =>
    obtain ⟨m, rfl⟩ : ∃ m, n = m + 1 := ⟨n - 1, by omega⟩
    rw [List.range_succ_eq_map, List.flatMap_cons]
    rw [List.getD_append]
    · simp
    · rw [hf 0]; omega
  | succ i ih =>
    obtain ⟨m, rfl⟩ : ∃ m, n = m + 1 := ⟨n - 1, by omega⟩
    rw [List.range_succ_eq_map, List.flatMap_cons]
    rw [List.getD_append_right]
    · rw [List.flatMap_map, hf 0]
      have harith : (i + 1) * 4 + k - 4 = i * 4 + k := by omega
      rw [harith]
      exact ih (fun j => f (Nat.succ j)) m (fun j => hf (Nat.succ j)) (by omega)
    · rw [hf 0]; omega

lemma bake_length (curve : CurveData) (resolution : ℕ) :
    (bakeCurveToArray curve resolution).length = resolution := by
  unfold bakeCurveToArray
  repeat' split
  all_goals simp [List.length_map, List.length_range]

/-! ## Claims -/

/-- Claim C8: after the Init pass every slot holds
`position = (0, -1000, 0)`, `velocity = 0`, `lifetime = 0`, `fadeRate = 0`,
`size = 0`; when the rotation column exists it is zeroed, and when the
per-particle colour columns exist both are set to white `(1, 1, 1)`. -/
theorem init_establishes_dead_state (feat : Features) (maxParticles : ℕ)
    (st : ℕ → Slot) (i : ℕ) (hi : i < maxParticles) :
    (initPass feat maxParticles st i).position = ⟨0, -1000, 0⟩ ∧
    (initPass feat maxParticles st i).velocity = Vec3.zero ∧
    (initPass feat maxParticles st i).lifetime = 0 ∧
    (initPass feat maxParticles st i).fadeRate = 0 ∧
    (initPass feat maxParticles st i).size = 0 ∧
    (feat.hasRotation → (initPass feat maxParticles st i).rotation = Vec3.zero) ∧
    (feat.hasColor → (initPass feat maxParticles st i).colorStart = ⟨1, 1, 1⟩ ∧
      (initPass feat maxParticles st i).colorEnd = ⟨1, 1, 1⟩) := by
  unfold initPass initSlot
  rw [if_pos hi]
  exact ⟨rfl, rfl, rfl, rfl, rfl, fun hr => by simp [hr],
    fun hc => ⟨by simp [hc], by simp [hc]⟩⟩

/-- Witness for `init_establishes_dead_state` at a concrete instance. -/
theorem init_establishes_dead_state_witness :
    (0 : ℕ) < 4 ∧
    ((initPass ⟨true, true, true, true, true, true, true⟩ 4
        (fun _ => default) 0).lifetime = 0) :=
  ⟨by decide,
   (init_establishes_dead_state ⟨true, true, true, true, true, true, true⟩ 4
      (fun _ => default) 0 (by decide)).2.2.1⟩

/-- Claim C4: for every curve with fewer than 2 points, or whose first or
last point lacks a valid position array, `bake(curve, resolution)` is the
linear descending ramp: element `i` equals `1 - i/(resolution-1)` for every
`i < resolution` (value 1 at progress 0, value 0 at progress 1). -/
theorem bake_malformed_is_linear_ramp (curve : CurveData) (resolution i : ℕ)
    (_hres : 2 ≤ resolution) (hi : i < resolution)
    (hmal : match curve with
      | none => True
      | some points => points.length < 2 ∨
          points.head?.bind CurvePoint.pos = none ∨
          points.getLast?.bind CurvePoint.pos = none) :
    (bakeCurveToArray curve resolution).getD i 0 =
      1 - (i : ℚ) / ((resolution : ℚ) - 1) := by
  have key : bakeCurveToArray curve resolution =
      (List.range resolution).map (rampAt resolution) := by
    unfold bakeCurveToArray
    rcases curve with _ | points
    · rfl
    · dsimp only at hmal ⊢
      by_cases hlen : points.length < 2
      · simp [hlen]
      · rw [if_neg hlen]
        rcases hhead : points.head? with _ | pF
        · exact absurd (List.head?_eq_none_iff.mp hhead) (by
            intro h; rw [h] at hlen; simp at hlen)
        rcases hlast : points.getLast? with _ | pL
        · exact absurd (List.getLast?_eq_none_iff.mp hlast) (by
            intro h; rw [h] at hlen; simp at hlen)
        dsimp only
        rcases hmal with h | h | h
        · exact absurd h hlen
        · rw [hhead, Option.some_bind] at h
          simp [h]
        · rw [hlast, Option.some_bind] at h
          simp [h]
  rw [key, getD_map_range _ _ _ hi]
  rfl

/-- Witness for `bake_malformed_is_linear_ramp`: the empty-points curve at
resolution 2, sample 0. -/
theorem bake_malformed_is_linear_ramp_witness :
    (2 ≤ 2 ∧ 0 < 2 ∧ ([] : List CurvePoint).length < 2) ∧
    (bakeCurveToArray (some []) 2).getD 0 0 = 1 - (0 : ℚ) / ((2 : ℚ) - 1) :=
  ⟨⟨by decide, by decide, by decide⟩,
   bake_malformed_is_linear_ramp (some []) 2 0 (by decide) (by decide)
     (Or.inl (by decide))⟩

/-- Claim C5: the combined curve texture interleaves the four independent
bakes with the fixed channel order R=size, G=opacity, B=velocity,
A=rotation-speed: for every sample `i < 256`, entries `i*4 .. i*4+3` are
exactly the four per-curve bakes at `i`. -/
theorem combine_interleaves_bakes (a b c d : CurveData) (i : ℕ)
    (hi : i < CURVE_RESOLUTION) :
    (createCombinedCurveTexture a b c d).getD (i * 4) 0 =
        (bakeCurveToArray a).getD i 0 ∧
    (createCombinedCurveTexture a b c d).getD (i * 4 + 1) 0 =
        (bakeCurveToArray b).getD i 0 ∧
    (createCombinedCurveTexture a b c d).getD (i * 4 + 2) 0 =
        (bakeCurveToArray c).getD i 0 ∧
    (createCombinedCurveTexture a b c d).getD (i * 4 + 3) 0 =
        (bakeCurveToArray d).getD i 0 := by
  unfold createCombinedCurveTexture
  have h0 := flatMap_range_getD
    (fun j => [(bakeCurveToArray a).getD j 0, (bakeCurveToArray b).getD j 0,
      (bakeCurveToArray c).getD j 0, (bakeCurveToArray d).getD j 0])
    CURVE_RESOLUTION (fun j => rfl) i
  refine ⟨?_, ?_, ?_, ?_⟩
  · have := h0 0 hi (by omega); simpa using this
  · have := h0 1 hi (by omega); simpa using this
  · have := h0 2 hi (by omega); simpa using this
  · have := h0 3 hi (by omega); simpa using this

/-- Witness for `combine_interleaves_bakes` at the default (null) curves,
sample 0. -/
theorem combine_interleaves_bakes_witness :
    0 < CURVE_RESOLUTION ∧
    (createCombinedCurveTexture none none none none).getD (0 * 4 + 1) 0 =
      (bakeCurveToArray none).getD 0 0 :=
  ⟨by decide, (combine_interleaves_bakes none none none none 0 (by decide)).2.1⟩

/-- Claim C9: every load failure of a precomputed curve texture — a non-OK
response, or a parsed float count different from `256 * 4 = 1024` — is caught
by the acquisition layer: a warning is logged and the result is the runtime
bake of the configured curves; the acquisition function is total, so no error
reaches the caller. -/
theorem load_failure_falls_back_to_bake (response : FetchResponse)
    (sizeCurve opacityCurve velocityCurve rotationSpeedCurve : CurveData)
    (hfail : ¬ response.ok ∨ response.floats.length ≠ CURVE_RESOLUTION * 4) :
    acquireCurveTexture response sizeCurve opacityCurve velocityCurve
        rotationSpeedCurve =
      (true, .baked (createCombinedCurveTexture sizeCurve opacityCurve
        velocityCurve rotationSpeedCurve)) := by
  unfold acquireCurveTexture loadCurveTextureFromPath
  rcases hfail with h | h
  · rw [if_pos h]
  · by_cases hok : response.ok
    · simp [hok, h]
    · simp [hok]

/-- Witness for `load_failure_falls_back_to_bake`: an OK response whose blob
is 2000 bytes, i.e. 500 parsed floats, is rejected and triggers the bake
fallback without throwing. -/
theorem load_failure_falls_back_to_bake_witness :
    (¬ (⟨true, 200, List.replicate 500 0⟩ : FetchResponse).ok ∨
      (⟨true, 200, List.replicate 500 0⟩ : FetchResponse).floats.length ≠
        CURVE_RESOLUTION * 4) ∧
    acquireCurveTexture ⟨true, 200, List.replicate 500 0⟩ none none none none =
      (true, .baked (createCombinedCurveTexture none none none none)) :=
  ⟨Or.inr (by rw [List.length_replicate]; decide),
   load_failure_falls_back_to_bake ⟨true, 200, List.replicate 500 0⟩
     none none none none (Or.inr (by rw [List.length_replicate]; decide))⟩

/-- Claim C10: when the requested spawn count is a multiple of
`maxParticles` (including zero), `spawnInternal`'s end index
`(start + count) % maxParticles` equals the start index, the shader takes the
wrap branch whose predicate holds for every slot, and the dispatch gives all
`maxParticles` slots `lifetime = 1`: a zero-count spawn respawns the whole
buffer. -/
theorem zero_count_spawn_respawns_all (env : MathEnv) (feat : Features)
    (u : Uniforms) (maxParticles startIdx count : ℕ) (st : ℕ → Slot)
    (hstart : startIdx < maxParticles) (hcount : count % maxParticles = 0) :
    spawnEndIndex startIdx count maxParticles = startIdx ∧
    (∀ q : ℚ, inRangeQ (startIdx : ℚ) (startIdx : ℚ) q = true) ∧
    (∀ i < maxParticles,
      ((spawnPass env
          { u with spawnIndexStart := (startIdx : ℚ),
                   spawnIndexEnd := (startIdx : ℚ) }
          feat maxParticles st) i).lifetime = 1) := by
  refine ⟨?_, ?_, ?_⟩
  · unfold spawnEndIndex
    rw [Nat.add_mod, hcount, Nat.add_zero, Nat.mod_mod_of_dvd _ dvd_rfl,
      Nat.mod_eq_of_lt hstart]
  · intro q
    unfold inRangeQ
    rw [if_neg (lt_irrefl _)]
    exact decide_eq_true (le_or_lt _ q)
  · intro i hi
    unfold spawnPass
    rw [if_pos hi]
    have hr : inRangeQ (startIdx : ℚ) (startIdx : ℚ) (i : ℚ) = true := by
      unfold inRangeQ
      rw [if_neg (lt_irrefl _)]
      exact decide_eq_true (le_or_lt _ _)
    rw [hr]
    rfl

/-- Witness for `zero_count_spawn_respawns_all`: `maxParticles = 3`,
`startIdx = 1`, `count = 0`. -/
theorem zero_count_spawn_respawns_all_witness :
    ((1 : ℕ) < 3 ∧ (0 : ℕ) % 3 = 0) ∧
    spawnEndIndex 1 0 3 = 1 ∧
    ((spawnPass constEnv
        { spawnIndexStart := (1 : ℚ), spawnIndexEnd := (1 : ℚ) }
        noFeatures 3 (fun _ => default)) 0).lifetime = 1 :=
  ⟨⟨by decide, by decide⟩,
   (zero_count_spawn_respawns_all constEnv noFeatures {} 3 1 0
      (fun _ => default) (by decide) (by decide)).1,
   (zero_count_spawn_respawns_all constEnv noFeatures {} 3 1 0
      (fun _ => default) (by decide) (by decide)).2.2 0 (by decide)⟩

/-- Projection lemma: a spawned slot's lifetime is exactly 1. -/
lemma spawnSlot_lifetime (env : MathEnv) (u : Uniforms) (feat : Features)
    (i : ℕ) (s : Slot) : (spawnSlot env u feat i s).lifetime = 1 := rfl

/-- Projection lemma: a spawned slot's fade rate is the interpolation of the
`lifetimeMin`/`lifetimeMax` uniforms by the hash draw at offset 666. -/
lemma spawnSlot_fadeRate (env : MathEnv) (u : Uniforms) (feat : Features)
    (i : ℕ) (s : Slot) :
    (spawnSlot env u feat i s).fadeRate =
      mix u.lifetimeMin u.lifetimeMax (env.hashFn ((i : ℚ) + u.spawnSeed + 666)) :=
  rfl

/-- Claim C1: a Spawn dispatch writes slot `i < maxParticles` exactly when
`(S < E ∧ S ≤ i < E) ∨ (S ≥ E ∧ (i ≥ S ∨ i < E))`; every written slot ends
with `lifetime = 1`, and every other slot keeps all of its fields exactly. -/
theorem spawn_range_semantics (env : MathEnv) (u : Uniforms) (feat : Features)
    (maxParticles : ℕ) (st : ℕ → Slot) (i : ℕ) (hi : i < maxParticles) :
    (inRangeQ u.spawnIndexStart u.spawnIndexEnd (i : ℚ) = true ↔
      (u.spawnIndexStart < u.spawnIndexEnd ∧
        u.spawnIndexStart ≤ (i : ℚ) ∧ (i : ℚ) < u.spawnIndexEnd) ∨
      (u.spawnIndexStart ≥ u.spawnIndexEnd ∧
        ((i : ℚ) ≥ u.spawnIndexStart ∨ (i : ℚ) < u.spawnIndexEnd))) ∧
    (inRangeQ u.spawnIndexStart u.spawnIndexEnd (i : ℚ) = true →
      spawnPass env u feat maxParticles st i = spawnSlot env u feat i (st i) ∧
      (spawnPass env u feat maxParticles st i).lifetime = 1) ∧
    (inRangeQ u.spawnIndexStart u.spawnIndexEnd (i : ℚ) = false →
      spawnPass env u feat maxParticles st i = st i) := by
  refine ⟨?_, ?_, ?_⟩
  · unfold inRangeQ
    by_cases hlt : u.spawnIndexStart < u.spawnIndexEnd
    · rw [if_pos hlt]
      simp only [decide_eq_true_iff]
      constructor
      · intro h; exact Or.inl ⟨hlt, h.1, h.2⟩
      · rintro (⟨_, h1, h2⟩ | ⟨hge, _⟩)
        · exact ⟨h1, h2⟩
        · exact absurd hlt (not_lt.mpr hge)
    · rw [if_neg hlt]
      simp only [decide_eq_true_iff]
      constructor
      · intro h; exact Or.inr ⟨not_lt.mp hlt, h⟩
      · rintro (⟨h1, _⟩ | ⟨_, h2⟩)
        · exact absurd h1 hlt
        · exact h2
  · intro hr
    unfold spawnPass
    rw [if_pos hi, if_pos hr]
    exact ⟨rfl, rfl⟩
  · intro hr
    unfold spawnPass
    rw [if_pos hi, if_neg (by rw [hr]; exact Bool.false_ne_true)]

/-- Witness for `spawn_range_semantics` at a concrete in-range index. -/
theorem spawn_range_semantics_witness :
    (0 : ℕ) < 2 ∧
    (inRangeQ (0 : ℚ) 1 ((0 : ℕ) : ℚ) = true →
      ((spawnPass constEnv { spawnIndexStart := 0, spawnIndexEnd := 1 }
          noFeatures 2 (fun _ => default)) 0).lifetime = 1) :=
  ⟨by decide,
   fun hr => ((spawn_range_semantics constEnv
      { spawnIndexStart := 0, spawnIndexEnd := 1 } noFeatures 2
      (fun _ => default) 0 (by decide)).2.1 hr).2⟩

/-- Update never writes the fade rate: it is fixed at spawn time. -/
lemma updateSlot_fadeRate (env : MathEnv) (u : Uniforms) (feat : Features)
    (i : ℕ) (s : Slot) : (updateSlot env u feat i s).fadeRate = s.fadeRate := by
  unfold updateSlot updateSlotLive
  dsimp only
  repeat' split
  all_goals rfl

/-- Claim C6: for a configured lifetime range `[a, b]` seconds (`0 < a ≤ b`)
and hash draw `r ∈ [0, 1]`, the spawned fade rate is exactly
`mix(1/b, 1/a, r)` (the reciprocals in inverted order), hence lies in
`[1/b, 1/a]`; a longer configured lifetime range gives a smaller fade rate;
and the Update pass never mutates the stored fade rate. -/
theorem fade_rate_spawn_semantics (env : MathEnv) (u : Uniforms)
    (feat : Features) (i : ℕ) (s : Slot) (a b : ℚ) (ha : 0 < a) (hab : a ≤ b)
    (hr0 : 0 ≤ env.hashFn ((i : ℚ) + u.spawnSeed + 666))
    (hr1 : env.hashFn ((i : ℚ) + u.spawnSeed + 666) ≤ 1) :
    (spawnSlot env (setLifetimeUniforms u a b) feat i s).fadeRate =
      mix (1 / b) (1 / a) (env.hashFn ((i : ℚ) + u.spawnSeed + 666)) ∧
    1 / b ≤ (spawnSlot env (setLifetimeUniforms u a b) feat i s).fadeRate ∧
    (spawnSlot env (setLifetimeUniforms u a b) feat i s).fadeRate ≤ 1 / a ∧
    (∀ a2 b2 : ℚ, a ≤ a2 → b ≤ b2 →
      (spawnSlot env (setLifetimeUniforms u a2 b2) feat i s).fadeRate ≤
        (spawnSlot env (setLifetimeUniforms u a b) feat i s).fadeRate) ∧
    (∀ u3 : Uniforms, ∀ j : ℕ, ∀ s3 : Slot,
      (updateSlot env u3 feat j s3).fadeRate = s3.fadeRate) := by
  have hb : 0 < b := lt_of_lt_of_le ha hab
  set r := env.hashFn ((i : ℚ) + u.spawnSeed + 666) with hrdef
  have hkey : ∀ a4 b4 : ℚ,
      (spawnSlot env (setLifetimeUniforms u a4 b4) feat i s).fadeRate =
        mix (1 / b4) (1 / a4) r := by
    intro a4 b4
    rw [spawnSlot_fadeRate]
    rfl
  have hba : 1 / b ≤ 1 / a := one_div_le_one_div_of_le ha hab
  refine ⟨hkey a b, ?_, ?_, ?_, ?_⟩
  · rw [hkey a b]
    unfold mix
    nlinarith [mul_nonneg (sub_nonneg.mpr hba) hr0]
  · rw [hkey a b]
    unfold mix
    nlinarith [mul_nonneg (sub_nonneg.mpr hba) (sub_nonneg.mpr hr1)]
  · intro a2 b2 ha2 hb2
    rw [hkey a b, hkey a2 b2]
    have h1 : 1 / b2 ≤ 1 / b := one_div_le_one_div_of_le hb hb2
    have h2 : 1 / a2 ≤ 1 / a := one_div_le_one_div_of_le ha ha2
    unfold mix
    nlinarith [mul_nonneg (sub_nonneg.mpr h1) (sub_nonneg.mpr hr1),
      mul_nonneg (sub_nonneg.mpr h2) hr0]
  · intro u3 j s3
    exact updateSlot_fadeRate env u3 feat j s3

/-- Witness for `fade_rate_spawn_semantics`: lifetime range `[1, 2]` with the
constant-half hash environment. -/
theorem fade_rate_spawn_semantics_witness :
    ((0 : ℚ) < 1 ∧ (1 : ℚ) ≤ 2 ∧
      0 ≤ constEnv.hashFn (((0 : ℕ) : ℚ) + Uniforms.spawnSeed {} + 666) ∧
      constEnv.hashFn (((0 : ℕ) : ℚ) + Uniforms.spawnSeed {} + 666) ≤ 1) ∧
    (spawnSlot constEnv (setLifetimeUniforms {} 1 2) noFeatures 0
        default).fadeRate =
      mix (1 / 2) (1 / 1)
        (constEnv.hashFn (((0 : ℕ) : ℚ) + Uniforms.spawnSeed {} + 666)) :=
  ⟨⟨by norm_num, by norm_num, by norm_num [constEnv], by norm_num [constEnv]⟩,
   (fade_rate_spawn_semantics constEnv {} noFeatures 0 default 1 2
      (by norm_num) (by norm_num) (by norm_num [constEnv])
      (by norm_num [constEnv])).1⟩

/-- The collision block inside Update acts on the freshly integrated
position: with the collision feature compiled in, `updateCollision` is
exactly `collisionStep` applied to `position + velocity * dt * speedScale`
and the post-force velocity. -/
lemma updateCollision_eq_collisionStep (env : MathEnv) (u : Uniforms)
    (feat : Features) (s : Slot) (hc : feat.collision = true) :
    updateCollision env u feat s =
      collisionStep u
        (s.position.add (Vec3.smul (u.deltaTime * speedScaleOf env u (1 - s.lifetime))
          (updateForces env u feat s)))
        (updateForces env u feat s) s.lifetime := by
  unfold updateCollision
  rw [if_pos hc]

/-- Claim C7: with collision enabled, an integrated position below `planeY`
either kills the particle (`lifetime = 0`, sentinel `y = -1000`) when `die`
is set, or clamps `y` to the plane, sets `velocity.y = |velocity.y| * bounce`
(non-negative, hence upward, for `bounce ≥ 0`) and scales `velocity.x`,
`velocity.z` by `friction`; positions at or above the plane pass through the
collision step unchanged. -/
theorem collision_step_semantics (u : Uniforms) (p v : Vec3) (l : ℚ)
    (hen : u.collisionEnabled > 1/2) :
    (p.y < u.collisionPlaneY →
      (u.collisionDie > 1/2 →
        collisionStep u p v l = ⟨⟨p.x, -1000, p.z⟩, v, 0⟩) ∧
      (¬ u.collisionDie > 1/2 →
        collisionStep u p v l =
          ⟨⟨p.x, u.collisionPlaneY, p.z⟩,
           ⟨v.x * u.collisionFriction, |v.y| * u.collisionBounce,
            v.z * u.collisionFriction⟩, l⟩ ∧
        (0 ≤ u.collisionBounce → 0 ≤ (collisionStep u p v l).vel.y))) ∧
    (¬ p.y < u.collisionPlaneY → collisionStep u p v l = ⟨p, v, l⟩) ∧
    (∀ (env : MathEnv) (feat : Features) (s : Slot), feat.collision = true →
      updateCollision env u feat s =
        collisionStep u
          (s.position.add (Vec3.smul (u.deltaTime * speedScaleOf env u (1 - s.lifetime))
            (updateForces env u feat s)))
          (updateForces env u feat s) s.lifetime) := by
  refine ⟨?_, ?_, fun env feat s hc =>
    updateCollision_eq_collisionStep env u feat s hc⟩
  · intro hy
    constructor
    · intro hdie
      unfold collisionStep
      rw [if_pos hen, if_pos hy, if_pos hdie]
    · intro hdie
      have heq : collisionStep u p v l =
          ⟨⟨p.x, u.collisionPlaneY, p.z⟩,
           ⟨v.x * u.collisionFriction, |v.y| * u.collisionBounce,
            v.z * u.collisionFriction⟩, l⟩ := by
        unfold collisionStep
        rw [if_pos hen, if_pos hy, if_neg hdie]
      refine ⟨heq, ?_⟩
      intro hb
      rw [heq]
      exact mul_nonneg (abs_nonneg _) hb
  · intro hy
    unfold collisionStep
    rw [if_pos hen, if_neg hy]

/-- Witness for `collision_step_semantics`: a particle at `y = -1` crossing
the `y = 0` plane with `die` unset, `bounce = 1/2`, `friction = 1/4`. -/
theorem collision_step_semantics_witness :
    ((0 : ℚ) > 1/2 → False) ∧
    collisionStep
        { collisionEnabled := 1, collisionPlaneY := 0, collisionBounce := 1/2,
          collisionFriction := 1/4 }
        ⟨2, -1, 3⟩ ⟨4, -8, 12⟩ (1/2) =
      ⟨⟨2, 0, 3⟩, ⟨4 * (1/4), |(-8 : ℚ)| * (1/2), 12 * (1/4)⟩, 1/2⟩ :=
  ⟨fun h => by norm_num at h,
   ((collision_step_semantics
      { collisionEnabled := 1, collisionPlaneY := 0, collisionBounce := 1/2,
        collisionFriction := 1/4 }
      ⟨2, -1, 3⟩ ⟨4, -8, 12⟩ (1/2) (by norm_num)).1 (by norm_num)).2
      (by norm_num) |>.1⟩

/-- The collision block either keeps the incoming lifetime or kills the slot
(zero lifetime together with the sentinel `y`). -/
lemma collisionStep_lt_cases (u : Uniforms) (p v : Vec3) (l : ℚ) :
    (collisionStep u p v l).lt = l ∨
      ((collisionStep u p v l).lt = 0 ∧ (collisionStep u p v l).pos.y = -1000) := by
  unfold collisionStep
  repeat' split
  all_goals simp

/-- Lifetime after `updateCollision` is the incoming lifetime or zero. -/
lemma updateCollision_lt_cases (env : MathEnv) (u : Uniforms) (feat : Features)
    (s : Slot) :
    (updateCollision env u feat s).lt = s.lifetime ∨
      (updateCollision env u feat s).lt = 0 := by
  unfold updateCollision
  dsimp only
  split
  · rcases collisionStep_lt_cases u _ _ s.lifetime with h | h
    · exact Or.inl h
    · exact Or.inr h.1
  · exact Or.inl rfl

/-- Shape of a live update when the decayed lifetime drops to or below zero:
the slot ends with `lifetime = 0` and the sentinel `y = -1000`. -/
lemma updateSlotLive_dead (env : MathEnv) (u : Uniforms) (feat : Features)
    (i : ℕ) (s : Slot)
    (h : (updateCollision env u feat s).lt - s.fadeRate * u.deltaTime ≤ 0) :
    (updateSlotLive env u feat i s).lifetime = 0 ∧
    (updateSlotLive env u feat i s).position.y = -1000 := by
  unfold updateSlotLive
  dsimp only
  rw [if_pos h]
  exact ⟨rfl, rfl⟩

/-- Shape of a live update when the decayed lifetime stays positive. -/
lemma updateSlotLive_alive (env : MathEnv) (u : Uniforms) (feat : Features)
    (i : ℕ) (s : Slot)
    (h : ¬ (updateCollision env u feat s).lt - s.fadeRate * u.deltaTime ≤ 0) :
    (updateSlotLive env u feat i s).lifetime =
      (updateCollision env u feat s).lt - s.fadeRate * u.deltaTime := by
  unfold updateSlotLive
  dsimp only
  rw [if_neg h]

/-- Per-slot state predicate of claim C2: lifetime is normalised to `[0, 1]`
and a dead slot carries the sentinel `y`. -/
def SlotInv (s : Slot) : Prop :=
  0 ≤ s.lifetime ∧ s.lifetime ≤ 1 ∧ (s.lifetime = 0 → s.position.y = -1000)

instance (s : Slot) : Decidable (SlotInv s) := by
  unfold SlotInv
  infer_instance

/-- Claim C2: with non-negative stored fade rates and a non-negative frame
time, each of Init, Spawn and Update maps a storage satisfying `SlotInv`
everywhere to one satisfying it everywhere (Init establishes it outright,
Spawn writes `lifetime = 1`, Update only ever decreases a slot's lifetime,
clamping to exactly 0 with the sentinel position). -/
theorem passes_preserve_lifetime_invariant (env : MathEnv) (u : Uniforms)
    (feat : Features) (maxParticles : ℕ) (st : ℕ → Slot)
    (hfade : ∀ i, 0 ≤ (st i).fadeRate) (hdt : 0 ≤ u.deltaTime)
    (hinv : ∀ i, SlotInv (st i)) :
    (∀ i, SlotInv (initPass feat maxParticles st i)) ∧
    (∀ i, SlotInv (spawnPass env u feat maxParticles st i)) ∧
    (∀ i, SlotInv (updatePass env u feat maxParticles st i) ∧
      (updatePass env u feat maxParticles st i).lifetime ≤ (st i).lifetime) := by
  refine ⟨?_, ?_, ?_⟩
  · intro i
    unfold initPass
    split
    · exact ⟨le_refl 0, zero_le_one, fun _ => rfl⟩
    · exact hinv i
  · intro i
    unfold spawnPass
    split
    · split
      · refine ⟨?_, ?_, ?_⟩
        · rw [spawnSlot_lifetime]; norm_num
        · rw [spawnSlot_lifetime]
        · intro hz
          rw [spawnSlot_lifetime] at hz
          exact absurd hz one_ne_zero
      · exact hinv i
    · exact hinv i
  · intro i
    unfold updatePass
    split
    · unfold updateSlot
      split
      · rename_i hlive
        obtain ⟨h0, h1, _⟩ := hinv i
        have hfd : 0 ≤ (st i).fadeRate * u.deltaTime :=
          mul_nonneg (hfade i) hdt
        have hcle : (updateCollision env u feat (st i)).lt ≤ (st i).lifetime := by
          rcases updateCollision_lt_cases env u feat (st i) with h2 | h2
          · exact le_of_eq h2
          · rw [h2]; exact h0
        by_cases hl3 : (updateCollision env u feat (st i)).lt -
            (st i).fadeRate * u.deltaTime ≤ 0
        · obtain ⟨hlz, hpy⟩ := updateSlotLive_dead env u feat i (st i) hl3
          exact ⟨⟨by rw [hlz], by rw [hlz]; norm_num, fun _ => hpy⟩,
            by rw [hlz]; exact h0⟩
        · have hla := updateSlotLive_alive env u feat i (st i) hl3
          have hpos := not_le.mp hl3
          refine ⟨⟨?_, ?_, ?_⟩, ?_⟩
          · rw [hla]; linarith
          · rw [hla]; linarith
          · intro hz
            rw [hla] at hz
            exact absurd hz (by linarith)
          · rw [hla]; linarith
      · exact ⟨hinv i, le_refl _⟩
    · exact ⟨hinv i, le_refl _⟩

/-- Witness for `passes_preserve_lifetime_invariant`: a one-slot storage of
freshly initialised slots with the default uniforms. -/
theorem passes_preserve_lifetime_invariant_witness :
    ((∀ i : ℕ, 0 ≤ ((fun _ => initSlot noFeatures default) i : Slot).fadeRate) ∧
      (0 : ℚ) ≤ Uniforms.deltaTime {} ∧
      (∀ i : ℕ, SlotInv ((fun _ => initSlot noFeatures default) i : Slot))) ∧
    SlotInv (updatePass constEnv {} noFeatures 1
      (fun _ => initSlot noFeatures default) 0) :=
  ⟨⟨fun _ => le_refl 0, by norm_num,
    fun _ => show SlotInv (initSlot noFeatures default) by decide⟩,
   ((passes_preserve_lifetime_invariant constEnv {} noFeatures 1
      (fun _ => initSlot noFeatures default) (fun _ => le_refl 0)
      (by norm_num)
      (fun _ => show SlotInv (initSlot noFeatures default) by decide)).2.2 0).1⟩

/-- With zero gravity and the turbulence/attractor features off, the force
blocks leave the velocity unchanged. -/
lemma updateForces_simple (env : MathEnv) (u : Uniforms) (feat : Features)
    (s : Slot) (hg : u.gravity = Vec3.zero) (ht : feat.turbulence = false)
    (hatr : feat.attractors = false) :
    updateForces env u feat s = s.velocity := by
  unfold updateForces
  dsimp only
  rw [hg]
  simp [ht, hatr, Vec3.add, Vec3.smul, Vec3.zero]

/-- With the velocity curve disabled and both friction intensities zero, the
speed scale is exactly 1. -/
lemma speedScale_simple (env : MathEnv) (u : Uniforms) (progress : ℚ)
    (hvc : ¬ u.velocityCurveEnabled > 1/2)
    (hfs : u.frictionIntensityStart = 0) (hfe : u.frictionIntensityEnd = 0) :
    speedScaleOf env u progress = 1 := by
  unfold speedScaleOf frictionSpeedScale
  rw [if_neg hvc]
  dsimp only
  rw [hfs, hfe]
  simp [mix]

/-- Closed form of one update step under the simplifying configuration of
claim C3: no gravity, no turbulence, no attractors, no collision, friction
intensity 0 (speed scale 1).  Velocity is untouched; position integrates
`velocity * dt`; lifetime decays by `fadeRate * dt` with the dead clamp. -/
lemma updateSlot_simple (env : MathEnv) (u : Uniforms) (feat : Features)
    (i : ℕ) (s : Slot)
    (hg : u.gravity = Vec3.zero) (ht : feat.turbulence = false)
    (hatr : feat.attractors = false) (hcol : feat.collision = false)
    (hvc : ¬ u.velocityCurveEnabled > 1/2)
    (hfs : u.frictionIntensityStart = 0) (hfe : u.frictionIntensityEnd = 0) :
    (updateSlot env u feat i s).velocity = s.velocity ∧
    (updateSlot env u feat i s).lifetime =
      (if 0 < s.lifetime then
        (if s.lifetime - s.fadeRate * u.deltaTime ≤ 0 then 0
         else s.lifetime - s.fadeRate * u.deltaTime)
       else s.lifetime) ∧
    (updateSlot env u feat i s).position =
      (if 0 < s.lifetime then
        (if s.lifetime - s.fadeRate * u.deltaTime ≤ 0 then
          ⟨(s.position.add (Vec3.smul u.deltaTime s.velocity)).x, -1000,
           (s.position.add (Vec3.smul u.deltaTime s.velocity)).z⟩
         else s.position.add (Vec3.smul u.deltaTime s.velocity))
       else s.position) := by
  have hcoll : updateCollision env u feat s =
      ⟨s.position.add (Vec3.smul u.deltaTime s.velocity), s.velocity,
        s.lifetime⟩ := by
    unfold updateCollision
    dsimp only
    rw [updateForces_simple env u feat s hg ht hatr,
      speedScale_simple env u (1 - s.lifetime) hvc hfs hfe,
      if_neg (by simp [hcol]), mul_one]
  unfold updateSlot updateSlotLive
  dsimp only
  rw [hcoll]
  dsimp only
  by_cases hlive : s.lifetime > 0
  · rw [if_pos hlive, if_pos hlive, if_pos hlive]
    by_cases hdead : s.lifetime - s.fadeRate * u.deltaTime ≤ 0
    · rw [if_pos hdead, if_pos hdead, if_pos hdead]
      exact ⟨rfl, rfl, rfl⟩
    · rw [if_neg hdead, if_neg hdead, if_neg hdead]
      exact ⟨rfl, rfl, rfl⟩
  · rw [if_neg hlive, if_neg hlive, if_neg hlive]
    exact ⟨rfl, rfl, rfl⟩

/-- A dead slot is untouched by any number of update frames. -/
lemma simulateSlot_dead (env : MathEnv) (u : Uniforms) (feat : Features)
    (i : ℕ) (dts : List ℚ) (s : Slot) (h : ¬ s.lifetime > 0) :
    simulateSlot env u feat i dts s = s := by
  induction dts with
  | nil => rfl
  | cons d rest ih =>
    show simulateSlot env u feat i rest
      (updateSlot env { u with deltaTime := d } feat i s) = s
    rw [show updateSlot env { u with deltaTime := d } feat i s = s by
      unfold updateSlot; rw [if_neg h]]
    exact ih

/-- Core induction for claim C3: a slot flying with constant velocity `v`
from `P0`, with fade rate `f > 0`, driven by non-negative frame times whose
total (together with the time `c` already consumed) is `1/f`, ends with
lifetime exactly 0, its `x`/`z` at the full integral `P0 + (1/f) * v`, and
its `y` overwritten by the dead sentinel. -/
lemma simulate_attract_aux (env : MathEnv) (u : Uniforms) (feat : Features)
    (i : ℕ) (f : ℚ) (hf : 0 < f)
    (hg : u.gravity = Vec3.zero) (ht : feat.turbulence = false)
    (hatr : feat.attractors = false) (hcol : feat.collision = false)
    (hvc : ¬ u.velocityCurveEnabled > 1/2)
    (hfs : u.frictionIntensityStart = 0) (hfe : u.frictionIntensityEnd = 0)
    (P0x P0y P0z vx vy vz : ℚ) (dts : List ℚ) :
    (∀ d ∈ dts, 0 ≤ d) →
    ∀ (c : ℚ) (s : Slot), 0 ≤ c → c < 1/f → c + dts.sum = 1/f →
    s.lifetime = 1 - f * c →
    s.position.x = P0x + c * vx → s.position.y = P0y + c * vy →
    s.position.z = P0z + c * vz →
    s.velocity = ⟨vx, vy, vz⟩ → s.fadeRate = f →
    (simulateSlot env u feat i dts s).lifetime = 0 ∧
    (simulateSlot env u feat i dts s).position.x = P0x + (1/f) * vx ∧
    (simulateSlot env u feat i dts s).position.z = P0z + (1/f) * vz ∧
    (simulateSlot env u feat i dts s).position.y = -1000 := by
  induction dts with
  | nil =>
    intro _ c s _ hclt hsum _ _ _ _ _ _
    exfalso
    rw [List.sum_nil, add_zero] at hsum
    exact absurd hsum (ne_of_lt hclt)
  | cons d rest ih =>
    intro hdts c s hc0 hclt hsum hlt hpx hpy hpz hvel hfr
    have hd0 : 0 ≤ d := hdts d (List.mem_cons_self d rest)
    have hrest0 : 0 ≤ rest.sum :=
      List.sum_nonneg (fun x hx => hdts x (List.mem_cons_of_mem _ hx))
    rw [List.sum_cons] at hsum
    have hfinv : f * (1 / f) = 1 := by field_simp
    have halive : 0 < s.lifetime := by
      rw [hlt]
      nlinarith [mul_lt_mul_of_pos_left hclt hf]
    have hstep : simulateSlot env u feat i (d :: rest) s =
        simulateSlot env u feat i rest
          (updateSlot env { u with deltaTime := d } feat i s) := rfl
    obtain ⟨hv2, hl2, hp2⟩ :=
      updateSlot_simple env { u with deltaTime := d } feat i s hg ht hatr hcol
        hvc hfs hfe
    dsimp only at hv2 hl2 hp2
    rw [if_pos halive] at hl2 hp2
    have hintx : (s.position.add (Vec3.smul d s.velocity)).x =
        P0x + (c + d) * vx := by
      rw [hvel]
      show s.position.x + d * vx = P0x + (c + d) * vx
      rw [hpx]; ring
    have hinty : (s.position.add (Vec3.smul d s.velocity)).y =
        P0y + (c + d) * vy := by
      rw [hvel]
      show s.position.y + d * vy = P0y + (c + d) * vy
      rw [hpy]; ring
    have hintz : (s.position.add (Vec3.smul d s.velocity)).z =
        P0z + (c + d) * vz := by
      rw [hvel]
      show s.position.z + d * vz = P0z + (c + d) * vz
      rw [hpz]; ring
    by_cases hdead : s.lifetime - s.fadeRate * d ≤ 0
    · have hcd : c + d = 1 / f := by
        rw [hlt, hfr] at hdead
        have h2 : 1 / f ≤ c + d := by
          rw [div_le_iff₀ hf]
          nlinarith
        linarith
      rw [if_pos hdead] at hl2 hp2
      have hdead2 : ¬ (updateSlot env { u with deltaTime := d } feat i s).lifetime > 0 := by
        rw [hl2]; norm_num
      rw [hstep, simulateSlot_dead env u feat i rest _ hdead2]
      refine ⟨hl2, ?_, ?_, ?_⟩
      · rw [hp2]
        show (s.position.add (Vec3.smul d s.velocity)).x = P0x + 1 / f * vx
        rw [hintx, hcd]
      · rw [hp2]
        show (s.position.add (Vec3.smul d s.velocity)).z = P0z + 1 / f * vz
        rw [hintz, hcd]
      · rw [hp2]
    · rw [if_neg hdead] at hl2 hp2
      have hcd : c + d < 1 / f := by
        rw [hlt, hfr] at hdead
        push_neg at hdead
        rw [lt_div_iff₀ hf]
        nlinarith
      rw [hstep]
      refine ih (fun x hx => hdts x (List.mem_cons_of_mem _ hx)) (c + d) _
        (by linarith) hcd (by linarith) ?_ ?_ ?_ ?_ ?_ ?_
      · rw [hl2, hlt, hfr]; ring
      · rw [hp2, hintx]
      · rw [hp2, hinty]
      · rw [hp2, hintz]
      · rw [hv2, hvel]
      · rw [updateSlot_fadeRate, hfr]

/-- In attract-to-center mode the spawned velocity is the negated shape
offset scaled by the spawned fade rate, and the spawned position is the
spawn origin plus the shape offset. -/
lemma spawnSlot_attract (env : MathEnv) (u : Uniforms) (feat : Features)
    (i : ℕ) (s : Slot) (hat : u.attractToCenter > 1/2) :
    (spawnSlot env u feat i s).velocity =
      Vec3.smul (spawnSlot env u feat i s).fadeRate (shapeOffsetOf env u i).neg ∧
    (spawnSlot env u feat i s).position =
      u.spawnPosition.add (shapeOffsetOf env u i) := by
  rw [spawnSlot_fadeRate]
  unfold spawnSlot
  dsimp only
  rw [if_pos hat]
  exact ⟨rfl, rfl⟩

/-- Claim C3 (amended): in attract-to-center mode a particle spawned with
shape offset `o` and fade rate `f > 0` gets velocity `-o * f`; with no
gravity, turbulence, attractors or collision and friction intensity 0
(speed scale 1), after Update frames whose non-negative dt values sum to
`1/f`, the accumulated displacement equals `-o` — its `x` and `z` are back at
the spawn origin at the exact frame its lifetime reaches 0 — but in that same
frame the dead-slot clamp overwrites `position.y` with the sentinel `-1000`,
so the full position is not the spawn origin. -/
theorem attract_to_center_semantics (env : MathEnv) (u : Uniforms)
    (feat : Features) (i : ℕ) (s0 : Slot)
    (hat : u.attractToCenter > 1/2)
    (hg : u.gravity = Vec3.zero) (ht : feat.turbulence = false)
    (hatr : feat.attractors = false) (hcol : feat.collision = false)
    (hvc : ¬ u.velocityCurveEnabled > 1/2)
    (hfs : u.frictionIntensityStart = 0) (hfe : u.frictionIntensityEnd = 0)
    (hf : 0 < (spawnSlot env u feat i s0).fadeRate)
    (dts : List ℚ) (hdts : ∀ d ∈ dts, 0 ≤ d)
    (hsum : dts.sum = 1 / (spawnSlot env u feat i s0).fadeRate) :
    (spawnSlot env u feat i s0).velocity =
      Vec3.smul (spawnSlot env u feat i s0).fadeRate
        (shapeOffsetOf env u i).neg ∧
    (simulateSlot env u feat i dts (spawnSlot env u feat i s0)).lifetime = 0 ∧
    (simulateSlot env u feat i dts (spawnSlot env u feat i s0)).position.x -
        (spawnSlot env u feat i s0).position.x = -(shapeOffsetOf env u i).x ∧
    (simulateSlot env u feat i dts (spawnSlot env u feat i s0)).position.z -
        (spawnSlot env u feat i s0).position.z = -(shapeOffsetOf env u i).z ∧
    (simulateSlot env u feat i dts (spawnSlot env u feat i s0)).position.x =
      u.spawnPosition.x ∧
    (simulateSlot env u feat i dts (spawnSlot env u feat i s0)).position.z =
      u.spawnPosition.z ∧
    (simulateSlot env u feat i dts (spawnSlot env u feat i s0)).position.y =
      -1000 := by
  obtain ⟨hvel, hpos⟩ := spawnSlot_attract env u feat i s0 hat
  have hfne : (spawnSlot env u feat i s0).fadeRate ≠ 0 := ne_of_gt hf
  have haux := simulate_attract_aux env u feat i
    (spawnSlot env u feat i s0).fadeRate hf hg ht hatr hcol hvc hfs hfe
    (u.spawnPosition.x + (shapeOffsetOf env u i).x)
    (u.spawnPosition.y + (shapeOffsetOf env u i).y)
    (u.spawnPosition.z + (shapeOffsetOf env u i).z)
    (-((spawnSlot env u feat i s0).fadeRate * (shapeOffsetOf env u i).x))
    (-((spawnSlot env u feat i s0).fadeRate * (shapeOffsetOf env u i).y))
    (-((spawnSlot env u feat i s0).fadeRate * (shapeOffsetOf env u i).z))
    dts hdts 0 (spawnSlot env u feat i s0) (le_refl 0)
    (one_div_pos.mpr hf) (by rw [zero_add, hsum])
    (by rw [spawnSlot_lifetime]; ring)
    (by rw [hpos]; show u.spawnPosition.x + (shapeOffsetOf env u i).x = _; ring)
    (by rw [hpos]; show u.spawnPosition.y + (shapeOffsetOf env u i).y = _; ring)
    (by rw [hpos]; show u.spawnPosition.z + (shapeOffsetOf env u i).z = _; ring)
    (by rw [hvel]; simp [Vec3.smul, Vec3.neg, mul_neg])
    rfl
  have hspx : (spawnSlot env u feat i s0).position.x =
      u.spawnPosition.x + (shapeOffsetOf env u i).x := by
    rw [hpos]; rfl
  have hspz : (spawnSlot env u feat i s0).position.z =
      u.spawnPosition.z + (shapeOffsetOf env u i).z := by
    rw [hpos]; rfl
  obtain ⟨hfin_lt, hfin_x, hfin_z, hfin_y⟩ := haux
  refine ⟨hvel, hfin_lt, ?_, ?_, ?_, ?_, hfin_y⟩
  · rw [hfin_x, hspx]
    field_simp
    ring
  · rw [hfin_z, hspz]
    field_simp
    ring
  · rw [hfin_x]
    field_simp
    ring
  · rw [hfin_z]
    field_simp
    ring

/-- Concrete attract-to-center configuration: box emitter collapsed to the
offset `(1, 0, 0)`, lifetime range `[1, 1]` (fade rate 1), spawn origin at
`(0, 0, 0)`. -/
def attractUniformsCX : Uniforms :=
  { attractToCenter := 1, emitterShapeType := 1, startPosMinX := 1,
    startPosMaxX := 1, lifetimeMin := 1, lifetimeMax := 1 }

/-- Update never writes the size column. -/
lemma updateSlot_size (env : MathEnv) (u : Uniforms) (feat : Features)
    (i : ℕ) (s : Slot) : (updateSlot env u feat i s).size = s.size := by
  unfold updateSlot updateSlotLive
  dsimp only
  repeat' split
  all_goals rfl

/-- Update never writes the per-particle colour columns. -/
lemma updateSlot_colors (env : MathEnv) (u : Uniforms) (feat : Features)
    (i : ℕ) (s : Slot) :
    (updateSlot env u feat i s).colorStart = s.colorStart ∧
    (updateSlot env u feat i s).colorEnd = s.colorEnd := by
  unfold updateSlot updateSlotLive
  dsimp only
  repeat' split
  all_goals exact ⟨rfl, rfl⟩

/-- With the rotation feature off, Update keeps the rotation column. -/
lemma updateSlot_rotation_off (env : MathEnv) (u : Uniforms) (feat : Features)
    (i : ℕ) (s : Slot) (h : feat.rotation = false) :
    (updateSlot env u feat i s).rotation = s.rotation := by
  unfold updateSlot updateSlotLive
  dsimp only
  rw [if_neg (show ¬ (feat.rotation = true ∧ feat.hasRotation = true) by
    simp [h])]
  repeat' split
  all_goals rfl

/-- Shape offset of the concrete counterexample configuration. -/
lemma shapeOffset_CX : shapeOffsetOf constEnv attractUniformsCX 0 = ⟨1, 0, 0⟩ := by
  norm_num [shapeOffsetOf, attractUniformsCX, constEnv, mix]

/-- Fade rate of the concrete counterexample particle. -/
lemma fadeRate_CX :
    (spawnSlot constEnv attractUniformsCX noFeatures 0 default).fadeRate = 1 := by
  rw [spawnSlot_fadeRate]
  norm_num [attractUniformsCX, constEnv, mix]

/-- Full state of the concrete counterexample particle after its single
1-second frame: dead, with `x`/`z` back at the origin and the sentinel `y`. -/
lemma simulate_CX :
    simulateSlot constEnv attractUniformsCX noFeatures 0 [1]
        (spawnSlot constEnv attractUniformsCX noFeatures 0 default) =
      { spawnSlot constEnv attractUniformsCX noFeatures 0 default with
        position := ⟨0, -1000, 0⟩, lifetime := 0 } := by
  obtain ⟨hv, hp⟩ := spawnSlot_attract constEnv attractUniformsCX noFeatures 0
    default (by norm_num [attractUniformsCX])
  rw [fadeRate_CX] at hv
  rw [shapeOffset_CX] at hv hp
  have hvel : (spawnSlot constEnv attractUniformsCX noFeatures 0 default).velocity
      = ⟨-1, 0, 0⟩ := by
    rw [hv]; norm_num [Vec3.smul, Vec3.neg]
  have hpos : (spawnSlot constEnv attractUniformsCX noFeatures 0 default).position
      = ⟨1, 0, 0⟩ := by
    rw [hp]; norm_num [Vec3.add, attractUniformsCX, Vec3.zero]
  obtain ⟨hv2, hl2, hp2⟩ := updateSlot_simple constEnv
    { attractUniformsCX with deltaTime := 1 } noFeatures 0
    (spawnSlot constEnv attractUniformsCX noFeatures 0 default)
    rfl rfl rfl rfl (by norm_num [attractUniformsCX]) rfl rfl
  dsimp only at hv2 hl2 hp2
  rw [spawnSlot_lifetime, fadeRate_CX] at hl2 hp2
  norm_num at hl2 hp2
  rw [hpos, hvel] at hp2
  norm_num [Vec3.add, Vec3.smul] at hp2
  show updateSlot constEnv { attractUniformsCX with deltaTime := 1 } noFeatures 0
      (spawnSlot constEnv attractUniformsCX noFeatures 0 default) = _
  ext1
  · rw [hp2]
  · rw [hv2, hvel]
  · rw [hl2]
  · rw [updateSlot_fadeRate]
  · rw [updateSlot_size]
  · rw [updateSlot_rotation_off _ _ _ _ _ rfl]
  · rw [(updateSlot_colors _ _ _ _ _).1]
  · rw [(updateSlot_colors _ _ _ _ _).2]

/-- Counterexample to claim C3 as stated: for the concrete attract-to-center
particle (shape offset `(1,0,0)`, fade rate 1, spawn origin `(0,0,0)`), at
the exact frame its lifetime reaches 0 the dead-slot clamp has overwritten
`position.y` with `-1000`, so the position is 1000 away from the spawn origin
— not within any reasonable epsilon (here: not even within 1). -/
theorem attract_to_center_claim_counterexample :
    (simulateSlot constEnv attractUniformsCX noFeatures 0 [1]
        (spawnSlot constEnv attractUniformsCX noFeatures 0 default)).lifetime
      = 0 ∧
    attractUniformsCX.spawnPosition = ⟨0, 0, 0⟩ ∧
    (simulateSlot constEnv attractUniformsCX noFeatures 0 [1]
        (spawnSlot constEnv attractUniformsCX noFeatures 0 default)).position
      = ⟨0, -1000, 0⟩ ∧
    ¬ |(simulateSlot constEnv attractUniformsCX noFeatures 0 [1]
          (spawnSlot constEnv attractUniformsCX noFeatures 0 default)).position.y
        - attractUniformsCX.spawnPosition.y| ≤ 1 := by
  rw [simulate_CX]
  refine ⟨rfl, rfl, rfl, ?_⟩
  norm_num [attractUniformsCX, Vec3.zero]

/-- Witness for `attract_to_center_semantics` at the concrete configuration
of the counterexample, with a single 1-second frame. -/
theorem attract_to_center_semantics_witness :
    (attractUniformsCX.attractToCenter > 1/2 ∧
      0 < (spawnSlot constEnv attractUniformsCX noFeatures 0 default).fadeRate ∧
      ([1] : List ℚ).sum =
        1 / (spawnSlot constEnv attractUniformsCX noFeatures 0 default).fadeRate) ∧
    (simulateSlot constEnv attractUniformsCX noFeatures 0 [1]
        (spawnSlot constEnv attractUniformsCX noFeatures 0 default)).position.x =
      attractUniformsCX.spawnPosition.x :=
  ⟨⟨by norm_num [attractUniformsCX], by rw [fadeRate_CX]; norm_num,
    by rw [fadeRate_CX]; norm_num⟩,
   (attract_to_center_semantics constEnv attractUniformsCX noFeatures 0 default
      (by norm_num [attractUniformsCX]) rfl rfl rfl rfl
      (by norm_num [attractUniformsCX]) rfl rfl
      (by rw [fadeRate_CX]; norm_num) [1]
      (fun d hd => by
        rw [List.mem_singleton] at hd
        rw [hd]
        norm_num)
      (by rw [fadeRate_CX]; norm_num)).2.2.2.2.1⟩

end VFX
